import Mathlib

/-!
# dbutil: connection registry and dialect operators

A shallow embedding of `dbx/db.go`, `dboperator/postgresql/postgres.go` and
`dboperator/sqlserver/sqlserver.go`.

* A Go `map[string]V` (and the `sync.Map` of the registry, whose keys are
  always strings) is an association list holding at most one pair per key.
  Go maps have no iteration order; the position of a pair in the list is not
  observable through `mapGet`.
* A pointer stored in a map (`*LogicDBInfo`, `*TableColInfo`, `*DBWrapper`) is
  the value it points to: every such pointer is created fresh for one key and
  reached only through that key, so updating the pointee is re-storing it.
* The gorm driver is a record of functions (`Env`); every call into it and
  every read of the registry is appended to the trace of the state.
-/

namespace Dbutil

/-! ## Go maps -/

/-- Lookup `m[k]` with the comma-ok flag folded into the option. -/
def mapGet {V : Type} : List (String × V) → String → Option V
  | [], _ => none
  | (k', v) :: m, k => if k' = k then some v else mapGet m k

/-- Assignment `m[k] = v`. -/
def mapSet {V : Type} : List (String × V) → String → V → List (String × V)
  | [], k, v => [(k, v)]
  | (k', v') :: m, k, v => if k' = k then (k, v) :: m else (k', v') :: mapSet m k v

/-- Removal of the key `k`. -/
def mapDelete {V : Type} (m : List (String × V)) (k : String) : List (String × V) :=
  m.filter (fun kv => decide (kv.1 ≠ k))

/-- The keys of the map. -/
def mapKeys {V : Type} (m : List (String × V)) : List String :=
  m.map Prod.fst

/-! ## Metadata model (package `dboperator`) -/

/-- Modelled from the spec: the scan target of the table catalog queries,
declared in package `dboperator`; the fields are the ones the operators read. -/
structure GormDBTable where
  TableSchema : String
  TableName : String
  Comments : String
deriving DecidableEq, Repr

/-- Modelled from the spec: the scan target of the column catalog queries,
declared in package `dboperator`; the fields are the ones the operators read. -/
structure GormTableColumn where
  TableSchema : String
  TableName : String
  ColumnName : String
  DataType : String
  Comments : String
deriving DecidableEq, Repr

/-- Modelled from the spec: `TableInfo` is `{TableName, Comment}`. -/
structure TableInfo where
  TableName : String
  Comment : String
deriving DecidableEq, Repr

/-- Modelled from the spec: `LogicDBInfo` is `{SchemaName, ordered list of TableInfo}`. -/
structure LogicDBInfo where
  SchemaName : String
  TableInfoList : List TableInfo
deriving DecidableEq, Repr

/-- Modelled from the spec: `ColumnInfo` is `{ColumnName, DataType, Comment}`. -/
structure ColumnInfo where
  ColumnName : String
  Comment : String
  DataType : String
deriving DecidableEq, Repr

/-- Modelled from the spec: `TableColInfo` is `{TableName, ordered list of ColumnInfo}`. -/
structure TableColInfo where
  TableName : String
  ColumnInfoList : List ColumnInfo
deriving DecidableEq, Repr

/-! ## Row folding loops -/

/-- One iteration of `for _, row := range gormDBTables` in `GetTablesUnderSchema`
and `GetTablesUnderDB` (the body is the same text in both operators). -/
def tableLoopBody (dbTableMap : List (String × LogicDBInfo)) (row : GormDBTable) :
    List (String × LogicDBInfo) :=
  match mapGet dbTableMap row.TableSchema with
  | none =>
    mapSet dbTableMap row.TableSchema
      { SchemaName := row.TableSchema
        TableInfoList := [{ TableName := row.TableName, Comment := row.Comments }] }
  | some logicDBInfo =>
    mapSet dbTableMap row.TableSchema
      { logicDBInfo with
        TableInfoList := logicDBInfo.TableInfoList ++
          [{ TableName := row.TableName, Comment := row.Comments }] }

/-- The whole loop over the scanned rows, started on `dbTableMap`. -/
def tableLoop (dbTableMap : List (String × LogicDBInfo)) (gormDBTables : List GormDBTable) :
    List (String × LogicDBInfo) :=
  gormDBTables.foldl tableLoopBody dbTableMap

/-- One iteration of `for _, row := range gormTableColumns` in `GetColumns`
(the body is the same text in both operators). The inner map is a Go
reference, so writing into it is visible through the outer map. -/
def columnLoopBody (dbTableColMap : List (String × List (String × TableColInfo)))
    (row : GormTableColumn) : List (String × List (String × TableColInfo)) :=
  match mapGet dbTableColMap row.TableSchema with
  | none =>
    mapSet dbTableColMap row.TableSchema
      [(row.TableName,
        { TableName := row.TableName
          ColumnInfoList :=
            [{ ColumnName := row.ColumnName, Comment := row.Comments, DataType := row.DataType }] })]
  | some dbTableColInfoMap =>
    match mapGet dbTableColInfoMap row.TableName with
    | none =>
      mapSet dbTableColMap row.TableSchema
        (mapSet dbTableColInfoMap row.TableName
          { TableName := row.TableName
            ColumnInfoList :=
              [{ ColumnName := row.ColumnName, Comment := row.Comments,
                 DataType := row.DataType }] })
    | some tableColInfo =>
      mapSet dbTableColMap row.TableSchema
        (mapSet dbTableColInfoMap row.TableName
          { tableColInfo with
            ColumnInfoList := tableColInfo.ColumnInfoList ++
              [{ ColumnName := row.ColumnName, Comment := row.Comments,
                 DataType := row.DataType }] })

/-- The whole loop of `GetColumns` over the scanned rows. -/
def columnLoop (dbTableColMap : List (String × List (String × TableColInfo)))
    (gormTableColumns : List GormTableColumn) : List (String × List (String × TableColInfo)) :=
  gormTableColumns.foldl columnLoopBody dbTableColMap

/-- One iteration of the loop of `GetColumnsUnderTables` (keyed by table name only). -/
def tableColLoopBody (tableColMap : List (String × TableColInfo)) (row : GormTableColumn) :
    List (String × TableColInfo) :=
  match mapGet tableColMap row.TableName with
  | none =>
    mapSet tableColMap row.TableName
      { TableName := row.TableName
        ColumnInfoList :=
          [{ ColumnName := row.ColumnName, Comment := row.Comments, DataType := row.DataType }] }
  | some tableColInfo =>
    mapSet tableColMap row.TableName
      { tableColInfo with
        ColumnInfoList := tableColInfo.ColumnInfoList ++
          [{ ColumnName := row.ColumnName, Comment := row.Comments, DataType := row.DataType }] }

/-- The whole loop of `GetColumnsUnderTables`. -/
def tableColLoop (tableColMap : List (String × TableColInfo))
    (gormTableColumns : List GormTableColumn) : List (String × TableColInfo) :=
  gormTableColumns.foldl tableColLoopBody tableColMap

/-! ## Connection registry (package `dbx`) -/

/-- Modelled from the spec: `DBType` is a string enum `mysql|postgres|oracle|sqlserver`
(its declaration is in `dbx/config.go`; `InitConfig` prints it with `string(...)`). -/
abbrev DBType := String

/-- Modelled from the spec: the `mysql` member of the `DBType` enum. -/
def DBTypeMySQL : DBType := "mysql"

/-- Modelled from the spec: the `postgres` member of the `DBType` enum. -/
def DBTypePostgres : DBType := "postgres"

/-- Modelled from the spec: the `oracle` member of the `DBType` enum. -/
def DBTypeOracle : DBType := "oracle"

/-- Modelled from the spec: the `sqlserver` member of the `DBType` enum. -/
def DBTypeSqlserver : DBType := "sqlserver"

/-- Modelled from the spec: `Config` is `{DBName, DBType, DSN or connection
parameters, MaxOpenConn, MaxIdleConn, ConnMaxLifetime}`. The structured
connection parameters are read by `GenDSN` only, which is a field of `Env`. -/
structure Config where
  DBName : String
  DBType : DBType
  DSN : String
  MaxOpenConn : Int
  MaxIdleConn : Int
  ConnMaxLifeTime : Int
deriving DecidableEq, Repr

/-- A `gorm.Dialector` as built by `mysql.Open`, `postgres.Open`, `oracle.Open`
or `sqlserver.Open`: the driver package and the DSN handed to it. -/
structure Dialector where
  driver : String
  dsn : String
deriving DecidableEq, Repr

/-- A non-nil `*gorm.DB`. -/
structure GormDB where
  id : Nat
deriving DecidableEq, Repr

/-- A non-nil `*sql.DB`. -/
structure SqlDB where
  id : Nat
deriving DecidableEq, Repr

/-- The struct `DBWrapper`. `Config` is the caller's config as it stands when
the wrapper is stored. -/
structure DBWrapper where
  DB : GormDB
  Config : Config
deriving DecidableEq, Repr

/-- Modelled from the spec: `Pagination` is `{PageIndex, PageSize, Total, PageCount}`. -/
structure Pagination where
  PageIndex : Int
  PageSize : Int
  Total : Int
  PageCount : Int
deriving DecidableEq, Repr

/-- What the code does to the registry and to the driver, in program order. -/
inductive Event where
  | load (name : String)
  | store (name : String)
  | loadAndDelete (name : String)
  | gormOpen (dialect : Dialector)
  | dbDB (db : GormDB)
  | setMaxOpenConns (sqlDB : SqlDB) (n : Int)
  | setMaxIdleConns (sqlDB : SqlDB) (n : Int)
  | setConnMaxLifetime (sqlDB : SqlDB) (d : Int)
  | sqlClose (sqlDB : SqlDB)
  | rawFind (db : GormDB) (sql : String) (args : List (List String))
  | tableFind (db : GormDB) (table : String) (offset limit : Int)
deriving DecidableEq, Repr

/-- The package state: the `sync.Map` behind `dbMap`, and the trace. -/
structure State where
  dbMap : List (String × DBWrapper)
  trace : List Event
deriving DecidableEq, Repr

/-- Appends one event to the trace. -/
def State.log (st : State) (e : Event) : State :=
  { st with trace := st.trace ++ [e] }

/-- Everything the code calls but does not define: `Config.GenDSN` and the pool
defaults of `dbx/config.go`, the pagination helpers of package `dboperator`,
and the gorm driver. A driver call sees the trace so far, so its answer may
change from one call to the next. `GenDSN` has a pointer receiver: it yields
the derived DSN and the value it leaves in the `DSN` field of its receiver. A
driver call that returns a handle returns a non-nil one or an error. `Find`
yields the scanned rows and `.Error`. -/
structure Env where
  GenDSN : Config → String × String
  defaultMaxOpenConn : Int
  defaultMaxIdleConn : Int
  defaultConnMaxLifeTime : Int
  GetOffset : Pagination → Int
  SetPageCount : Pagination → Pagination
  gormOpen : List Event → Dialector → Except String GormDB
  dbDB : List Event → GormDB → Except String SqlDB
  sqlClose : List Event → SqlDB → Option String
  findDBTables : List Event → GormDB → String → List GormDBTable × Option String
  findTableColumns :
    List Event → GormDB → String → List (List String) → List GormTableColumn × Option String
  findTableRows :
    List Event → GormDB → String → Int → Int → List (List (String × String)) × Int × Option String

/-- The `switch config.DBType` of `InitConfig`; `none` is the `default` branch. -/
def dialectOf (config : Config) : Option Dialector :=
  if config.DBType = DBTypeMySQL then some { driver := "mysql", dsn := config.DSN }
  else if config.DBType = DBTypePostgres then some { driver := "postgres", dsn := config.DSN }
  else if config.DBType = DBTypeOracle then some { driver := "oracle", dsn := config.DSN }
  else if config.DBType = DBTypeSqlserver then some { driver := "sqlserver", dsn := config.DSN }
  else none

/-- The three `if ... == 0` assignments of the pool defaults. -/
def applyDefaults (env : Env) (config : Config) : Config :=
  let config :=
    if config.MaxOpenConn = 0 then { config with MaxOpenConn := env.defaultMaxOpenConn }
    else config
  let config :=
    if config.MaxIdleConn = 0 then { config with MaxIdleConn := env.defaultMaxIdleConn }
    else config
  if config.ConnMaxLifeTime = 0 then { config with ConnMaxLifeTime := env.defaultConnMaxLifeTime }
  else config

/-- The part of `InitConfig` from `gorm.Open(dialect)` to the last pool
setting: the outcome is the error returned, or the wrapper about to be stored. -/
def openPool (env : Env) (st : State) (config : Config) (dialect : Dialector) :
    Except String DBWrapper × State :=
  let opened := env.gormOpen st.trace dialect
  let st := st.log (.gormOpen dialect)
  match opened with
  | .error err => (.error err, st)
  | .ok db =>
    let got := env.dbDB st.trace db
    let st := st.log (.dbDB db)
    match got with
    | .error err => (.error err, st)
    | .ok sqlDB =>
      let config := applyDefaults env config
      let st := st.log (.setMaxOpenConns sqlDB config.MaxOpenConn)
      let st := st.log (.setMaxIdleConns sqlDB config.MaxIdleConn)
      let st := st.log (.setConnMaxLifetime sqlDB config.ConnMaxLifeTime)
      (.ok { DB := db, Config := config }, st)

/-- The three checks at the head of `InitConfig`: the error returned, or the
config as `GenDSN` leaves it (`GenDSN` runs only when `config.DSN` is empty). -/
def checkConfig (env : Env) (config : Option Config) : Except String Config :=
  match config with
  | none => .error "no db config"
  | some config =>
    if config.DBName = "" then .error "no db name"
    else if config.DSN = "" then
      if (env.GenDSN config).1 = "" then .error "no db dsn"
      else .ok { config with DSN := (env.GenDSN config).2 }
    else .ok config

/-- The function `InitConfig`: the error returned (`none` is `nil`) and the state after. -/
def InitConfig (env : Env) (st : State) (config : Option Config) : Option String × State :=
  match checkConfig env config with
  | .error err => (some err, st)
  | .ok config =>
    let found := mapGet st.dbMap config.DBName
    let st := st.log (.load config.DBName)
    match found with
    | some _ => (none, st)
    | none =>
      match dialectOf config with
      | none => (some ("unsupported dbType: " ++ config.DBType), st)
      | some dialect =>
        match openPool env st config dialect with
        | (.error err, st) => (some err, st)
        | (.ok dbWrapper, st) =>
          (none, { dbMap := mapSet st.dbMap config.DBName dbWrapper
                   trace := st.trace ++ [.store config.DBName] })

/-- The function `GetDBConfig`. -/
def GetDBConfig (st : State) (name : String) : Except String Config × State :=
  match mapGet st.dbMap name with
  | none => (.error "no db instance", st.log (.load name))
  | some db => (.ok db.Config, st.log (.load name))

/-- The function `GetDB`. -/
def GetDB (st : State) (name : String) : Except String DBWrapper × State :=
  match mapGet st.dbMap name with
  | none => (.error "no db instance", st.log (.load name))
  | some db => (.ok db, st.log (.load name))

/-- The function `Close`. A stored value is never nil, and `DB()` returns a
non-nil handle or an error, so the two nil checks never fire on their own. -/
def Close (env : Env) (st : State) (dbName : String) : Option String × State :=
  if dbName = "" then (some "empty db name", st)
  else
    let v := mapGet st.dbMap dbName
    let st : State :=
      { dbMap := mapDelete st.dbMap dbName, trace := st.trace ++ [.loadAndDelete dbName] }
    match v with
    | none => (none, st)
    | some w =>
      let got := env.dbDB st.trace w.DB
      let st := st.log (.dbDB w.DB)
      match got with
      | .error err => (some err, st)
      | .ok db => (env.sqlClose st.trace db, st.log (.sqlClose db))

/-! ## Dialect operators (package `dboperator`)

The `ctx` argument is handed to the driver untouched and is left out. -/

/-- What `GetTablesUnderSchema` and `GetTablesUnderDB` leave behind: the two
results, the caller's `schemas` slice (written in place; `GetTablesUnderDB`
takes no slice and leaves the field empty), the state. -/
structure TablesResult where
  dbTableMap : List (String × LogicDBInfo)
  err : Option String
  schemas : List String
  st : State
deriving DecidableEq, Repr

/-- What `GetColumns` leaves behind. -/
structure ColumnsResult where
  dbTableColMap : List (String × List (String × TableColInfo))
  err : Option String
  st : State
deriving DecidableEq, Repr

/-- What `GetColumnsUnderTables` leaves behind. -/
structure TableColsResult where
  tableColMap : List (String × TableColInfo)
  err : Option String
  st : State
deriving DecidableEq, Repr

/-- What `GetTableData` leaves behind: the two results, the caller's
`pageInfo` (written through the pointer), the state. -/
structure TableDataResult where
  rows : List (List (String × String))
  err : Option String
  pageInfo : Pagination
  st : State
deriving DecidableEq, Repr

/-- The loop `schemas[index] = "'" + schema + "'"`. -/
def quoteSchemas (schemas : List String) : List String :=
  schemas.map (fun schema => "'" ++ schema ++ "'")

/-- The identifier `queryTable` of `GetTableData` (same text in both operators). -/
def queryTable (schemaName tableName : String) : String :=
  if schemaName ≠ "" then "\"" ++ schemaName ++ "\".\"" ++ tableName ++ "\""
  else "\"" ++ tableName ++ "\""

/-- The body of `GetTableData` (same text in both operators). -/
def getTableData (env : Env) (st : State) (dbName schemaName tableName : String)
    (pageInfo : Pagination) : TableDataResult :=
  match GetDB st dbName with
  | (.error err, st) => { rows := [], err := some err, pageInfo := pageInfo, st := st }
  | (.ok db, st) =>
    let offset := env.GetOffset pageInfo
    let found := env.findTableRows st.trace db.DB (queryTable schemaName tableName) offset
      pageInfo.PageSize
    let st := st.log (.tableFind db.DB (queryTable schemaName tableName) offset pageInfo.PageSize)
    { rows := found.1, err := found.2.2
      pageInfo := env.SetPageCount { pageInfo with Total := found.2.1 }, st := st }

namespace PGOperator

/-- The method `PGOperator.GetTableData`. -/
def GetTableData (env : Env) (st : State) (dbName schemaName tableName : String)
    (pageInfo : Pagination) : TableDataResult :=
  getTableData env st dbName schemaName tableName pageInfo

/-- The catalog query of `PGOperator.GetTablesUnderSchema`. -/
def tablesUnderSchemaSQL (schemas : List String) : String :=
  "SELECT tb.schemaname as table_schema, " ++
  "tb.tablename as table_name, " ++
  "d.description as comments " ++
  "FROM pg_tables tb " ++
  "JOIN pg_class c ON c.relname = tb.tablename " ++
  "LEFT JOIN pg_description d ON d.objoid = c.oid AND d.objsubid = '0' " ++
  "WHERE schemaname in (" ++ String.intercalate "," schemas ++ ") " ++
  "AND tablename NOT LIKE 'pg%' " ++
  "AND tablename NOT LIKE 'gp%' " ++
  "AND tablename NOT LIKE 'sql_%' " ++
  "ORDER BY tb.schemaname, tb.tablename"

/-- The catalog query of `PGOperator.GetTablesUnderDB`. -/
def tablesUnderDBSQL : String :=
  "SELECT tb.schemaname as table_schema, " ++
  "tb.tablename as table_name, " ++
  "d.description as comments " ++
  "FROM pg_tables tb " ++
  "JOIN pg_class c ON c.relname = tb.tablename " ++
  "LEFT JOIN pg_description d ON d.objoid = c.oid AND d.objsubid = '0' " ++
  "WHERE schemaname <> 'information_schema' " ++
  "AND tablename NOT LIKE 'pg%' " ++
  "AND tablename NOT LIKE 'gp%' " ++
  "AND tablename NOT LIKE 'sql_%' " ++
  "ORDER BY tb.schemaname, tb.tablename"

/-- The catalog query of `PGOperator.GetColumns`. -/
def columnsSQL : String :=
  "select " ++
  "ic.table_schema table_schema, " ++
  "ic.table_name table_name, " ++
  "ic.column_name as column_name, " ++
  "ic.udt_name as data_type, " ++
  "d.description as comments " ++
  "from " ++
  "information_schema.columns ic " ++
  "JOIN pg_class c ON c.relname = ic.table_name " ++
  "LEFT JOIN pg_description d " ++
  "ON d.objoid = c.oid AND d.objsubid = ic.ordinal_position " ++
  "where ic.table_name NOT LIKE 'pg%' " ++
  "AND ic.table_name NOT LIKE 'gp%' " ++
  "AND ic.table_name NOT LIKE 'sql_%' " ++
  "AND ic.table_schema <> 'information_schema' " ++
  "ORDER BY ic.table_name, ic.ordinal_position"

/-- The catalog query of `PGOperator.GetColumnsUnderTables`. -/
def columnsUnderTablesSQL : String :=
  "select " ++
  "ic.table_schema table_schema, " ++
  "ic.table_name table_name, " ++
  "ic.column_name as column_name, " ++
  "ic.udt_name as data_type, " ++
  "d.description as comments " ++
  "from " ++
  "information_schema.columns ic " ++
  "JOIN pg_class c ON c.relname = ic.table_name " ++
  "LEFT JOIN pg_description d " ++
  "ON d.objoid = c.oid AND d.objsubid = ic.ordinal_position " ++
  "where " ++
  "ic.table_schema = ? " ++
  "and ic.table_name in ? " ++
  "ORDER BY ic.table_name, ic.ordinal_position"

/-- The method `PGOperator.GetTablesUnderSchema`: `err` is assigned the
`.Error` of the query. -/
def GetTablesUnderSchema (env : Env) (st : State) (dbName : String) (schemas : List String) :
    TablesResult :=
  if dbName = "" then
    { dbTableMap := [], err := some "empty dnName", schemas := schemas, st := st }
  else
    let schemas := quoteSchemas schemas
    match GetDB st dbName with
    | (.error err, st) => { dbTableMap := [], err := some err, schemas := schemas, st := st }
    | (.ok db, st) =>
      let found := env.findDBTables st.trace db.DB (tablesUnderSchemaSQL schemas)
      let st := st.log (.rawFind db.DB (tablesUnderSchemaSQL schemas) [])
      if found.1.length = 0 then
        { dbTableMap := [], err := found.2, schemas := schemas, st := st }
      else
        { dbTableMap := tableLoop [] found.1, err := found.2, schemas := schemas, st := st }

/-- The method `PGOperator.GetTablesUnderDB`. -/
def GetTablesUnderDB (env : Env) (st : State) (dbName : String) : TablesResult :=
  if dbName = "" then
    { dbTableMap := [], err := some "empty dnName", schemas := [], st := st }
  else
    match GetDB st dbName with
    | (.error err, st) => { dbTableMap := [], err := some err, schemas := [], st := st }
    | (.ok db, st) =>
      let found := env.findDBTables st.trace db.DB tablesUnderDBSQL
      let st := st.log (.rawFind db.DB tablesUnderDBSQL [])
      if found.1.length = 0 then
        { dbTableMap := [], err := found.2, schemas := [], st := st }
      else
        { dbTableMap := tableLoop [] found.1, err := found.2, schemas := [], st := st }

/-- The method `PGOperator.GetColumns`. -/
def GetColumns (env : Env) (st : State) (dbName : String) : ColumnsResult :=
  if dbName = "" then { dbTableColMap := [], err := some "empty dnName", st := st }
  else
    match GetDB st dbName with
    | (.error err, st) => { dbTableColMap := [], err := some err, st := st }
    | (.ok db, st) =>
      let found := env.findTableColumns st.trace db.DB columnsSQL []
      let st := st.log (.rawFind db.DB columnsSQL [])
      match found.2 with
      | some err => { dbTableColMap := [], err := some err, st := st }
      | none =>
        if found.1.length = 0 then { dbTableColMap := [], err := none, st := st }
        else { dbTableColMap := columnLoop [] found.1, err := none, st := st }

/-- The method `PGOperator.GetColumnsUnderTables`. -/
def GetColumnsUnderTables (env : Env) (st : State) (dbName logicDBName : String)
    (tableNames : List String) : TableColsResult :=
  if dbName = "" then { tableColMap := [], err := some "empty dnName", st := st }
  else if tableNames.length = 0 then
    { tableColMap := [], err := some "empty tableNames", st := st }
  else
    match GetDB st dbName with
    | (.error err, st) => { tableColMap := [], err := some err, st := st }
    | (.ok db, st) =>
      let found :=
        env.findTableColumns st.trace db.DB columnsUnderTablesSQL [[logicDBName], tableNames]
      let st := st.log (.rawFind db.DB columnsUnderTablesSQL [[logicDBName], tableNames])
      match found.2 with
      | some err => { tableColMap := [], err := some err, st := st }
      | none =>
        if found.1.length = 0 then { tableColMap := [], err := none, st := st }
        else { tableColMap := tableColLoop [] found.1, err := none, st := st }

end PGOperator

namespace SqlServerOperator

/-- The method `SqlServerOperator.GetTableData`. -/
def GetTableData (env : Env) (st : State) (dbName schemaName tableName : String)
    (pageInfo : Pagination) : TableDataResult :=
  getTableData env st dbName schemaName tableName pageInfo

/-- The catalog query of `SqlServerOperator.GetTablesUnderSchema`. -/
def tablesUnderSchemaSQL (schemas : List String) : String :=
  "select  " ++
  "a.name AS table_name, " ++
  "b.name as table_schema, " ++
  "CONVERT(NVARCHAR(100),isnull(c.[value],'-')) AS comments " ++
  "FROM sys.tables a " ++
  "LEFT JOIN sys.schemas b " ++
  "ON a.schema_id = b.schema_id " ++
  "LEFT JOIN sys.extended_properties c " ++
  "ON (a.object_id = c.major_id AND c.minor_id = 0) " ++
  "WHERE b.name IN (" ++ String.intercalate "," schemas ++ ") " ++
  "ORDER BY b.name,a.name"

/-- The catalog query of `SqlServerOperator.GetTablesUnderDB`. -/
def tablesUnderDBSQL : String :=
  "select  " ++
  "a.name AS table_name, " ++
  "b.name as table_schema, " ++
  "CONVERT(NVARCHAR(100),isnull(c.[value],'-')) AS comments " ++
  "FROM sys.tables a " ++
  "LEFT JOIN sys.schemas b " ++
  "ON a.schema_id = b.schema_id " ++
  "LEFT JOIN sys.extended_properties c " ++
  "ON (a.object_id = c.major_id AND c.minor_id = 0) " ++
  "WHERE b.name not like 'db_%' and  b.name NOT IN ('sys','INFORMATION_SCHEMA') " ++
  "ORDER BY b.name,a.name"

/-- The catalog query of `SqlServerOperator.GetColumns`. -/
def columnsSQL : String :=
  "SELECT TABLE_SCHEMA as table_schema, " ++
  "TABLE_NAME as table_name, " ++
  "COLUMN_NAME as column_name, " ++
  "DATA_TYPE as data_type " ++
  "FROM INFORMATION_SCHEMA.Columns " ++
  "WHERE TABLE_SCHEMA NOT IN ('sys','INFORMATION_SCHEMA') " ++
  "ORDER BY TABLE_NAME, COLUMN_NAME"

/-- The catalog query of `SqlServerOperator.GetColumnsUnderTables`. -/
def columnsUnderTablesSQL : String :=
  "SELECT TABLE_SCHEMA as table_schema, " ++
  "TABLE_NAME as table_name, " ++
  "COLUMN_NAME as column_name, " ++
  "DATA_TYPE as data_type " ++
  "FROM INFORMATION_SCHEMA.Columns " ++
  "WHERE TABLE_SCHEMA = ? " ++
  "AND TABLE_NAME IN ? " ++
  "ORDER BY TABLE_NAME, COLUMN_NAME"

/-- The method `SqlServerOperator.GetTablesUnderSchema`: the query is a bare
statement, its `.Error` is not read, and `err` keeps the nil of `GetDB`. -/
def GetTablesUnderSchema (env : Env) (st : State) (dbName : String) (schemas : List String) :
    TablesResult :=
  if dbName = "" then
    { dbTableMap := [], err := some "empty dnName", schemas := schemas, st := st }
  else
    let schemas := quoteSchemas schemas
    match GetDB st dbName with
    | (.error err, st) => { dbTableMap := [], err := some err, schemas := schemas, st := st }
    | (.ok db, st) =>
      let found := env.findDBTables st.trace db.DB (tablesUnderSchemaSQL schemas)
      let st := st.log (.rawFind db.DB (tablesUnderSchemaSQL schemas) [])
      if found.1.length = 0 then
        { dbTableMap := [], err := none, schemas := schemas, st := st }
      else
        { dbTableMap := tableLoop [] found.1, err := none, schemas := schemas, st := st }

/-- The method `SqlServerOperator.GetTablesUnderDB`. -/
def GetTablesUnderDB (env : Env) (st : State) (dbName : String) : TablesResult :=
  if dbName = "" then
    { dbTableMap := [], err := some "empty dnName", schemas := [], st := st }
  else
    match GetDB st dbName with
    | (.error err, st) => { dbTableMap := [], err := some err, schemas := [], st := st }
    | (.ok db, st) =>
      let found := env.findDBTables st.trace db.DB tablesUnderDBSQL
      let st := st.log (.rawFind db.DB tablesUnderDBSQL [])
      if found.1.length = 0 then
        { dbTableMap := [], err := none, schemas := [], st := st }
      else
        { dbTableMap := tableLoop [] found.1, err := none, schemas := [], st := st }

/-- The method `SqlServerOperator.GetColumns`. -/
def GetColumns (env : Env) (st : State) (dbName : String) : ColumnsResult :=
  if dbName = "" then { dbTableColMap := [], err := some "empty dnName", st := st }
  else
    match GetDB st dbName with
    | (.error err, st) => { dbTableColMap := [], err := some err, st := st }
    | (.ok db, st) =>
      let found := env.findTableColumns st.trace db.DB columnsSQL []
      let st := st.log (.rawFind db.DB columnsSQL [])
      if found.1.length = 0 then { dbTableColMap := [], err := none, st := st }
      else { dbTableColMap := columnLoop [] found.1, err := none, st := st }

/-- The method `SqlServerOperator.GetColumnsUnderTables`. -/
def GetColumnsUnderTables (env : Env) (st : State) (dbName logicDBName : String)
    (tableNames : List String) : TableColsResult :=
  if dbName = "" then { tableColMap := [], err := some "empty dnName", st := st }
  else if tableNames.length = 0 then
    { tableColMap := [], err := some "empty tableNames", st := st }
  else
    match GetDB st dbName with
    | (.error err, st) => { tableColMap := [], err := some err, st := st }
    | (.ok db, st) =>
      let found :=
        env.findTableColumns st.trace db.DB columnsUnderTablesSQL [[logicDBName], tableNames]
      let st := st.log (.rawFind db.DB columnsUnderTablesSQL [[logicDBName], tableNames])
      if found.1.length = 0 then { tableColMap := [], err := none, st := st }
      else { tableColMap := tableColLoop [] found.1, err := none, st := st }

end SqlServerOperator

/-! ## Concurrent calls of `InitConfig`

Between two accesses of shared state (the `sync.Map`, the driver) a call of
`InitConfig` only works on its own locals, so a call is a sequence of at most
three atomic steps: the checks and `dbMap.Load`; the `switch` and the driver
calls up to the pool settings; `dbMap.Store`. Goroutines interleave at these
points. -/

/-- Where one call of `InitConfig` stands. -/
inductive InitPC where
  | entry (config : Option Config)
  | missed (config : Config)
  | opened (config : Config) (dbWrapper : DBWrapper)
  | returned (err : Option String)
deriving DecidableEq, Repr

/-- One atomic step of one call of `InitConfig`. -/
def initStep (env : Env) (pc : InitPC) (st : State) : InitPC × State :=
  match pc with
  | .entry config =>
    match checkConfig env config with
    | .error err => (.returned (some err), st)
    | .ok config =>
      let found := mapGet st.dbMap config.DBName
      let st := st.log (.load config.DBName)
      match found with
      | some _ => (.returned none, st)
      | none => (.missed config, st)
  | .missed config =>
    match dialectOf config with
    | none => (.returned (some ("unsupported dbType: " ++ config.DBType)), st)
    | some dialect =>
      match openPool env st config dialect with
      | (.error err, st) => (.returned (some err), st)
      | (.ok dbWrapper, st) => (.opened config dbWrapper, st)
  | .opened config dbWrapper =>
    (.returned none, { dbMap := mapSet st.dbMap config.DBName dbWrapper
                       trace := st.trace ++ [.store config.DBName] })
  | .returned err => (.returned err, st)

/-- Runs the calls `pcs` under a schedule: each entry names the call that takes
the next step. -/
def runCalls (env : Env) : List Nat → List InitPC → State → List InitPC × State
  | [], pcs, st => (pcs, st)
  | i :: sched, pcs, st =>
    match pcs.get? i with
    | none => runCalls env sched pcs st
    | some pc =>
      let next := initStep env pc st
      runCalls env sched (pcs.set i next.1) next.2

/-- The `gorm.Open` events of a trace. -/
def opensOf (trace : List Event) : List Dialector :=
  trace.filterMap (fun e => match e with
    | .gormOpen dialect => some dialect
    | _ => none)

/-- The `Close` events of a trace. -/
def closesOf (trace : List Event) : List SqlDB :=
  trace.filterMap (fun e => match e with
    | .sqlClose sqlDB => some sqlDB
    | _ => none)

/-! ## A driver for the examples -/

/-- A driver that never fails and counts its opens: the n-th `gorm.Open` yields
handle n, `DB()` yields the pool of the same number, queries scan no row. -/
def mockEnv : Env where
  GenDSN := fun config => ("", config.DSN)
  defaultMaxOpenConn := 10
  defaultMaxIdleConn := 5
  defaultConnMaxLifeTime := 3600
  GetOffset := fun pageInfo => (pageInfo.PageIndex - 1) * pageInfo.PageSize
  SetPageCount := fun pageInfo => pageInfo
  gormOpen := fun trace _ => .ok { id := (opensOf trace).length }
  dbDB := fun _ db => .ok { id := db.id }
  sqlClose := fun _ _ => none
  findDBTables := fun _ _ _ => ([], none)
  findTableColumns := fun _ _ _ _ => ([], none)
  findTableRows := fun _ _ _ _ _ => ([], 0, none)

/-- The driver of `mockEnv`, except that every catalog query fails. -/
def failingQueryEnv : Env :=
  { mockEnv with
    findDBTables := fun _ _ _ => ([], some "query failed")
    findTableColumns := fun _ _ _ _ => ([], some "query failed") }

/-- The config of the examples: a Postgres database registered as `main`. -/
def mainConfig : Config :=
  { DBName := "main", DBType := DBTypePostgres, DSN := "host=localhost dbname=main"
    MaxOpenConn := 0, MaxIdleConn := 0, ConnMaxLifeTime := 0 }

/-- The state at start-up: `init` leaves an empty `sync.Map`. -/
def initState : State := { dbMap := [], trace := [] }

/-- The states the package can be in: from start-up, any sequence of calls of
`InitConfig` and `Close` (the only writers of `dbMap`, which is unexported),
under any driver, and of the other functions, which only add to the trace. -/
inductive Reachable : State → Prop where
  | init : Reachable initState
  | initConfig (env : Env) (st : State) (config : Option Config) :
      Reachable st → Reachable (InitConfig env st config).2
  | close (env : Env) (st : State) (dbName : String) :
      Reachable st → Reachable (Close env st dbName).2
  | logged (st : State) (trace : List Event) :
      Reachable st → Reachable { st with trace := trace }

/-! ## The grouping the spec asks of the loops -/

/-- The `TableInfo` entries the spec puts under schema `s`: one per row of
that schema, in arrival order. -/
def tablesOfSchema (rows : List GormDBTable) (s : String) : List TableInfo :=
  (rows.filter (fun row => row.TableSchema = s)).map
    (fun row => { TableName := row.TableName, Comment := row.Comments })

/-- The `ColumnInfo` entries the spec puts under schema `s` and table `t`: one
per row of that schema and table, in arrival order. -/
def columnsOfTable (rows : List GormTableColumn) (s t : String) : List ColumnInfo :=
  (rows.filter (fun row => row.TableSchema = s ∧ row.TableName = t)).map
    (fun row => { ColumnName := row.ColumnName, Comment := row.Comments,
                  DataType := row.DataType })

/-- The Go expression `m[s][t]` with its comma-ok flag: a missing `s` yields a
nil inner map, in which every lookup misses. -/
def mapGet2 {V : Type} (m : List (String × List (String × V))) (s t : String) : Option V :=
  mapGet ((mapGet m s).getD []) t

/-- The identifier the spec asks of `GetTableData`: the double-quoted table
name, preceded by the double-quoted schema name and a dot when the schema name
is not empty. -/
def quotedIdentifier (schemaName tableName : String) : String :=
  if schemaName = "" then "\"" ++ tableName ++ "\""
  else ("\"" ++ schemaName ++ "\"") ++ "." ++ ("\"" ++ tableName ++ "\"")

/-- The element the spec says `GetTablesUnderSchema` leaves in place of `x`:
`x` between two single quotes, nothing escaped. -/
def singleQuoted (x : String) : String :=
  "'" ++ x ++ "'"

/-! ## Lemmas on Go maps -/

theorem mapGet_mapSet_self {V : Type} (m : List (String × V)) (k : String) (v : V) :
    mapGet (mapSet m k v) k = some v := by
  induction m with
  | nil => simp [mapSet, mapGet]
  | cons kv m ih =>
    obtain ⟨k', v'⟩ := kv
    by_cases h : k' = k
    · simp [mapSet, mapGet, h]
    · simp [mapSet, mapGet, h, ih]

theorem mapGet_mapSet_of_ne {V : Type} (m : List (String × V)) (k k' : String) (v : V)
    (h : k ≠ k') : mapGet (mapSet m k v) k' = mapGet m k' := by
  induction m with
  | nil => simp [mapSet, mapGet, h]
  | cons kv m ih =>
    obtain ⟨k0, v0⟩ := kv
    by_cases h0 : k0 = k
    · subst h0
      simp [mapSet, mapGet, h]
    · by_cases h1 : k0 = k'
      · subst h1
        simp [mapSet, mapGet, h0]
      · simp [mapSet, mapGet, h0, h1, ih]

theorem mapGet_eq_none_iff {V : Type} (m : List (String × V)) (k : String) :
    mapGet m k = none ↔ k ∉ mapKeys m := by
  induction m with
  | nil => simp [mapGet, mapKeys]
  | cons kv m ih =>
    obtain ⟨k0, v0⟩ := kv
    by_cases h0 : k0 = k
    · simp [mapGet, mapKeys, h0]
    · have h1 : ¬ k = k0 := fun h => h0 h.symm
      simpa [mapGet, mapKeys, h0, h1] using ih

theorem mem_mapKeys_iff {V : Type} (m : List (String × V)) (k : String) :
    k ∈ mapKeys m ↔ (mapGet m k).isSome = true := by
  have h := mapGet_eq_none_iff m k
  cases hg : mapGet m k with
  | none => simpa [hg] using h
  | some v =>
    rw [hg] at h
    simp only [Option.isSome_some, iff_true]
    by_contra hk
    exact absurd (h.mpr hk) (by simp)

theorem mapKeys_mapSet {V : Type} (m : List (String × V)) (k : String) (v : V) :
    mapKeys (mapSet m k v) = if k ∈ mapKeys m then mapKeys m else mapKeys m ++ [k] := by
  induction m with
  | nil => simp [mapSet, mapKeys]
  | cons kv m ih =>
    obtain ⟨k0, v0⟩ := kv
    by_cases h0 : k0 = k
    · simp [mapSet, mapKeys, h0]
    · have h1 : ¬ k = k0 := fun h => h0 h.symm
      simp only [mapKeys] at ih
      by_cases hk : k ∈ List.map Prod.fst m
      · simp [mapSet, mapKeys, h0, h1, hk, ih]
      · simp [mapSet, mapKeys, h0, h1, hk, ih]

theorem nodup_mapKeys_mapSet {V : Type} (m : List (String × V)) (k : String) (v : V)
    (h : (mapKeys m).Nodup) : (mapKeys (mapSet m k v)).Nodup := by
  rw [mapKeys_mapSet]
  by_cases hk : k ∈ mapKeys m
  · simpa [hk] using h
  · simp only [hk, if_false]
    exact List.Nodup.append h (List.nodup_singleton k) (by simpa using hk)

theorem mapGet_mapDelete_self {V : Type} (m : List (String × V)) (k : String) :
    mapGet (mapDelete m k) k = none := by
  induction m with
  | nil => simp [mapDelete, mapGet]
  | cons kv m ih =>
    obtain ⟨k0, v0⟩ := kv
    by_cases h0 : k0 = k
    · simpa [mapDelete, List.filter_cons, h0] using ih
    · simpa [mapDelete, List.filter_cons, h0, mapGet] using ih

theorem mapGet_mapDelete_of_ne {V : Type} (m : List (String × V)) (k k' : String)
    (h : k ≠ k') : mapGet (mapDelete m k) k' = mapGet m k' := by
  induction m with
  | nil => simp [mapDelete, mapGet]
  | cons kv m ih =>
    obtain ⟨k0, v0⟩ := kv
    by_cases h0 : k0 = k
    · have h1 : ¬ k0 = k' := by rw [h0]; exact h
      simpa [mapDelete, List.filter_cons, h0, mapGet, h1, h] using ih
    · by_cases h1 : k0 = k'
      · subst h1
        simp [mapDelete, List.filter_cons, h0, mapGet]
      · simpa [mapDelete, List.filter_cons, h0, mapGet, h1] using ih

theorem mapDelete_of_absent {V : Type} (m : List (String × V)) (k : String)
    (h : mapGet m k = none) : mapDelete m k = m := by
  induction m with
  | nil => simp [mapDelete]
  | cons kv m ih =>
    obtain ⟨k0, v0⟩ := kv
    by_cases h0 : k0 = k
    · simp [mapGet, h0] at h
    · simp only [mapGet, h0, if_false] at h
      have hm := ih h
      simp only [mapDelete] at hm
      simp only [mapDelete, List.filter_cons]
      rw [hm]
      simp [h0]

/-! ## Table-level folding -/

theorem tableLoop_snoc (m : List (String × LogicDBInfo)) (rows : List GormDBTable)
    (r : GormDBTable) : tableLoop m (rows ++ [r]) = tableLoopBody (tableLoop m rows) r := by
  simp [tableLoop, List.foldl_append]

theorem mapGet_tableLoopBody_of_ne (m : List (String × LogicDBInfo)) (r : GormDBTable)
    (s : String) (h : r.TableSchema ≠ s) : mapGet (tableLoopBody m r) s = mapGet m s := by
  unfold tableLoopBody
  split <;> exact mapGet_mapSet_of_ne _ _ _ _ h

theorem nodup_mapKeys_tableLoop (rows : List GormDBTable) :
    (mapKeys (tableLoop [] rows)).Nodup := by
  induction rows using List.reverseRecOn with
  | nil => simp [tableLoop, mapKeys]
  | append_singleton rows r ih =>
    rw [tableLoop_snoc]
    unfold tableLoopBody
    split <;> exact nodup_mapKeys_mapSet _ _ _ ih

theorem mapGet_tableLoop (rows : List GormDBTable) (s : String) :
    mapGet (tableLoop [] rows) s =
      if s ∈ rows.map (fun row => row.TableSchema) then
        some { SchemaName := s, TableInfoList := tablesOfSchema rows s }
      else none := by
  induction rows using List.reverseRecOn with
  | nil => simp [tableLoop, mapGet]
  | append_singleton rows r ih =>
    rw [tableLoop_snoc]
    by_cases hs : r.TableSchema = s
    · subst hs
      unfold tableLoopBody
      by_cases hm : r.TableSchema ∈ rows.map (fun row => row.TableSchema)
      · rw [ih, if_pos hm]
        simp [mapGet_mapSet_self, tablesOfSchema, List.filter_append]
      · rw [ih, if_neg hm]
        have hnil : rows.filter (fun row => decide (row.TableSchema = r.TableSchema)) = [] := by
          rw [List.filter_eq_nil_iff]
          intro a ha hd
          exact hm (List.mem_map.mpr ⟨a, ha, of_decide_eq_true hd⟩)
        simp [mapGet_mapSet_self, tablesOfSchema, List.filter_append, hnil]
    · rw [mapGet_tableLoopBody_of_ne _ _ _ hs, ih]
      have hne : ¬ s = r.TableSchema := fun h => hs h.symm
      simp [tablesOfSchema, List.filter_append, hs, hne]

/-- C1: table-level folding. For every sequence of catalog rows the loop
yields a map whose keys are exactly the distinct schemas of the rows, whose
entry under schema `s` has `SchemaName = s` and lists one `TableInfo` per row
of schema `s`, in arrival order, repeated pairs included; the four operations
`GetTablesUnderSchema` and `GetTablesUnderDB` of both operators return this
loop run on the rows the driver scanned; and the rows
`[(s1,t1),(s1,t2),(s2,t1)]` give `{s1: [t1,t2], s2: [t1]}`. -/
theorem table_folding_groups_by_schema :
    (∀ rows : List GormDBTable,
      (mapKeys (tableLoop [] rows)).Nodup ∧
      (∀ s, s ∈ mapKeys (tableLoop [] rows) ↔ s ∈ rows.map (fun row => row.TableSchema)) ∧
      (∀ s, mapGet (tableLoop [] rows) s =
        if s ∈ rows.map (fun row => row.TableSchema) then
          some { SchemaName := s, TableInfoList := tablesOfSchema rows s }
        else none)) ∧
    (∀ (env : Env) (st : State) (dbName : String) (schemas : List String),
      (PGOperator.GetTablesUnderSchema env st dbName schemas).dbTableMap =
        if dbName = "" then []
        else match mapGet st.dbMap dbName with
          | none => []
          | some w => tableLoop [] (env.findDBTables (st.trace ++ [Event.load dbName]) w.DB
              (PGOperator.tablesUnderSchemaSQL (quoteSchemas schemas))).1) ∧
    (∀ (env : Env) (st : State) (dbName : String),
      (PGOperator.GetTablesUnderDB env st dbName).dbTableMap =
        if dbName = "" then []
        else match mapGet st.dbMap dbName with
          | none => []
          | some w => tableLoop [] (env.findDBTables (st.trace ++ [Event.load dbName]) w.DB
              PGOperator.tablesUnderDBSQL).1) ∧
    (∀ (env : Env) (st : State) (dbName : String) (schemas : List String),
      (SqlServerOperator.GetTablesUnderSchema env st dbName schemas).dbTableMap =
        if dbName = "" then []
        else match mapGet st.dbMap dbName with
          | none => []
          | some w => tableLoop [] (env.findDBTables (st.trace ++ [Event.load dbName]) w.DB
              (SqlServerOperator.tablesUnderSchemaSQL (quoteSchemas schemas))).1) ∧
    (∀ (env : Env) (st : State) (dbName : String),
      (SqlServerOperator.GetTablesUnderDB env st dbName).dbTableMap =
        if dbName = "" then []
        else match mapGet st.dbMap dbName with
          | none => []
          | some w => tableLoop [] (env.findDBTables (st.trace ++ [Event.load dbName]) w.DB
              SqlServerOperator.tablesUnderDBSQL).1) ∧
    tableLoop []
        [{ TableSchema := "s1", TableName := "t1", Comments := "" },
         { TableSchema := "s1", TableName := "t2", Comments := "" },
         { TableSchema := "s2", TableName := "t1", Comments := "" }] =
      [("s1", { SchemaName := "s1"
                TableInfoList := [{ TableName := "t1", Comment := "" },
                                  { TableName := "t2", Comment := "" }] }),
       ("s2", { SchemaName := "s2", TableInfoList := [{ TableName := "t1", Comment := "" }] })] := by
  refine ⟨fun rows => ⟨nodup_mapKeys_tableLoop rows, fun s => ?_, mapGet_tableLoop rows⟩,
    ?_, ?_, ?_, ?_, by decide⟩
  · rw [mem_mapKeys_iff, mapGet_tableLoop]
    by_cases h : s ∈ rows.map (fun row => row.TableSchema) <;> simp [h]
  · intro env st dbName schemas
    unfold PGOperator.GetTablesUnderSchema GetDB
    by_cases hn : dbName = ""
    · simp [hn]
    · cases hg : mapGet st.dbMap dbName with
      | none => simp [hn]
      | some w =>
        simp only [hn, if_false, State.log]
        split
        · rename_i h0
          rw [List.length_eq_zero.mp h0]
          rfl
        · rfl
  · intro env st dbName
    unfold PGOperator.GetTablesUnderDB GetDB
    by_cases hn : dbName = ""
    · simp [hn]
    · cases hg : mapGet st.dbMap dbName with
      | none => simp [hn]
      | some w =>
        simp only [hn, if_false, State.log]
        split
        · rename_i h0
          rw [List.length_eq_zero.mp h0]
          rfl
        · rfl
  · intro env st dbName schemas
    unfold SqlServerOperator.GetTablesUnderSchema GetDB
    by_cases hn : dbName = ""
    · simp [hn]
    · cases hg : mapGet st.dbMap dbName with
      | none => simp [hn]
      | some w =>
        simp only [hn, if_false, State.log]
        split
        · rename_i h0
          rw [List.length_eq_zero.mp h0]
          rfl
        · rfl
  · intro env st dbName
    unfold SqlServerOperator.GetTablesUnderDB GetDB
    by_cases hn : dbName = ""
    · simp [hn]
    · cases hg : mapGet st.dbMap dbName with
      | none => simp [hn]
      | some w =>
        simp only [hn, if_false, State.log]
        split
        · rename_i h0
          rw [List.length_eq_zero.mp h0]
          rfl
        · rfl

/-! ## Column-level folding -/

theorem columnLoop_snoc (m : List (String × List (String × TableColInfo)))
    (rows : List GormTableColumn) (r : GormTableColumn) :
    columnLoop m (rows ++ [r]) = columnLoopBody (columnLoop m rows) r := by
  simp [columnLoop, List.foldl_append]

theorem mapGet_tableColLoopBody_of_ne (m : List (String × TableColInfo)) (r : GormTableColumn)
    (t : String) (h : r.TableName ≠ t) : mapGet (tableColLoopBody m r) t = mapGet m t := by
  unfold tableColLoopBody
  split <;> exact mapGet_mapSet_of_ne _ _ _ _ h

theorem nodup_mapKeys_tableColLoopBody (m : List (String × TableColInfo)) (r : GormTableColumn)
    (h : (mapKeys m).Nodup) : (mapKeys (tableColLoopBody m r)).Nodup := by
  unfold tableColLoopBody
  split <;> exact nodup_mapKeys_mapSet _ _ _ h

theorem mapGet_columnLoopBody_of_ne (m : List (String × List (String × TableColInfo)))
    (r : GormTableColumn) (s : String) (h : r.TableSchema ≠ s) :
    mapGet (columnLoopBody m r) s = mapGet m s := by
  unfold columnLoopBody
  split
  · exact mapGet_mapSet_of_ne _ _ _ _ h
  · split <;> exact mapGet_mapSet_of_ne _ _ _ _ h

theorem mapGet_columnLoopBody_self (m : List (String × List (String × TableColInfo)))
    (r : GormTableColumn) :
    mapGet (columnLoopBody m r) r.TableSchema =
      some (tableColLoopBody ((mapGet m r.TableSchema).getD []) r) := by
  unfold columnLoopBody
  cases ho : mapGet m r.TableSchema with
  | none => simp [mapGet_mapSet_self, tableColLoopBody, mapGet, mapSet]
  | some inner =>
    simp only [Option.getD_some]
    unfold tableColLoopBody
    cases hi : mapGet inner r.TableName with
    | none => simp [mapGet_mapSet_self]
    | some info => simp [mapGet_mapSet_self]

theorem nodup_mapKeys_columnLoopBody (m : List (String × List (String × TableColInfo)))
    (r : GormTableColumn) (h : (mapKeys m).Nodup) : (mapKeys (columnLoopBody m r)).Nodup := by
  unfold columnLoopBody
  split
  · exact nodup_mapKeys_mapSet _ _ _ h
  · split <;> exact nodup_mapKeys_mapSet _ _ _ h

theorem nodup_mapKeys_columnLoop (rows : List GormTableColumn) :
    (mapKeys (columnLoop [] rows)).Nodup := by
  induction rows using List.reverseRecOn with
  | nil => simp [columnLoop, mapKeys]
  | append_singleton rows r ih =>
    rw [columnLoop_snoc]
    exact nodup_mapKeys_columnLoopBody _ _ ih

theorem nodup_inner_columnLoop (rows : List GormTableColumn) (s : String) :
    (mapKeys ((mapGet (columnLoop [] rows) s).getD [])).Nodup := by
  induction rows using List.reverseRecOn with
  | nil => simp [columnLoop, mapGet, mapKeys]
  | append_singleton rows r ih =>
    rw [columnLoop_snoc]
    by_cases hs : r.TableSchema = s
    · subst hs
      rw [mapGet_columnLoopBody_self]
      exact nodup_mapKeys_tableColLoopBody _ _ ih
    · rw [mapGet_columnLoopBody_of_ne _ _ _ hs]
      exact ih

theorem mapGet2_columnLoop (rows : List GormTableColumn) (s t : String) :
    mapGet2 (columnLoop [] rows) s t =
      if (s, t) ∈ rows.map (fun row => (row.TableSchema, row.TableName)) then
        some { TableName := t, ColumnInfoList := columnsOfTable rows s t }
      else none := by
  unfold mapGet2
  induction rows using List.reverseRecOn with
  | nil => simp [columnLoop, mapGet]
  | append_singleton rows r ih =>
    rw [columnLoop_snoc]
    by_cases hs : r.TableSchema = s
    · subst hs
      rw [mapGet_columnLoopBody_self]
      simp only [Option.getD_some]
      by_cases ht : r.TableName = t
      · subst ht
        unfold tableColLoopBody
        by_cases hm : (r.TableSchema, r.TableName) ∈
            rows.map (fun row => (row.TableSchema, row.TableName))
        · rw [ih, if_pos hm]
          simp [mapGet_mapSet_self, columnsOfTable, List.filter_append]
        · rw [ih, if_neg hm]
          have hnil : rows.filter (fun row =>
              decide (row.TableSchema = r.TableSchema ∧ row.TableName = r.TableName)) = [] := by
            rw [List.filter_eq_nil_iff]
            intro a ha hd
            have hd := of_decide_eq_true hd
            exact hm (List.mem_map.mpr ⟨a, ha, by rw [hd.1, hd.2]⟩)
          simp only [mapGet_mapSet_self, columnsOfTable, List.filter_append, hnil]
          simp
      · rw [mapGet_tableColLoopBody_of_ne _ _ _ ht, ih]
        have hne : ¬ t = r.TableName := fun h => ht h.symm
        simp [columnsOfTable, List.filter_append, ht, hne]
    · rw [mapGet_columnLoopBody_of_ne _ _ _ hs, ih]
      have hne : ¬ s = r.TableSchema := fun h => hs h.symm
      simp [columnsOfTable, List.filter_append, hs, hne]

theorem mem_mapKeys_columnLoop (rows : List GormTableColumn) (s : String) :
    s ∈ mapKeys (columnLoop [] rows) ↔ s ∈ rows.map (fun row => row.TableSchema) := by
  induction rows using List.reverseRecOn with
  | nil => simp [columnLoop, mapKeys]
  | append_singleton rows r ih =>
    rw [columnLoop_snoc, mem_mapKeys_iff]
    by_cases hs : r.TableSchema = s
    · subst hs
      simp [mapGet_columnLoopBody_self]
    · rw [mapGet_columnLoopBody_of_ne _ _ _ hs, ← mem_mapKeys_iff, ih]
      have hne : ¬ s = r.TableSchema := fun h => hs h.symm
      simp [hne]

/-- C2: column-level folding. For every sequence of catalog rows the loop of
`GetColumns` yields a two-level map whose outer keys are exactly the distinct
schemas, whose inner keys under `s` are exactly the tables seen with `s`, and
whose entry under `(s, t)` has `TableName = t` and lists one `ColumnInfo`
(name, data type, comment of the row) per row of schema `s` and table `t`, in
arrival order; `GetColumns` of both operators returns this loop run on the rows
the driver scanned (Postgres: when the query reports no error); and the rows
`[(s1,t1,c1),(s1,t1,c2),(s1,t2,c1)]` give `{s1: {t1: [c1,c2], t2: [c1]}}`. -/
theorem column_folding_groups_by_schema_and_table :
    (∀ rows : List GormTableColumn,
      (mapKeys (columnLoop [] rows)).Nodup ∧
      (∀ s, s ∈ mapKeys (columnLoop [] rows) ↔ s ∈ rows.map (fun row => row.TableSchema)) ∧
      (∀ s, (mapKeys ((mapGet (columnLoop [] rows) s).getD [])).Nodup) ∧
      (∀ s t, t ∈ mapKeys ((mapGet (columnLoop [] rows) s).getD []) ↔
        (s, t) ∈ rows.map (fun row => (row.TableSchema, row.TableName))) ∧
      (∀ s t, mapGet2 (columnLoop [] rows) s t =
        if (s, t) ∈ rows.map (fun row => (row.TableSchema, row.TableName)) then
          some { TableName := t, ColumnInfoList := columnsOfTable rows s t }
        else none)) ∧
    (∀ (env : Env) (st : State) (dbName : String),
      (PGOperator.GetColumns env st dbName).dbTableColMap =
        if dbName = "" then []
        else match mapGet st.dbMap dbName with
          | none => []
          | some w =>
            if (env.findTableColumns (st.trace ++ [Event.load dbName]) w.DB
                PGOperator.columnsSQL []).2.isSome = true then []
            else columnLoop [] (env.findTableColumns (st.trace ++ [Event.load dbName]) w.DB
                PGOperator.columnsSQL []).1) ∧
    (∀ (env : Env) (st : State) (dbName : String),
      (SqlServerOperator.GetColumns env st dbName).dbTableColMap =
        if dbName = "" then []
        else match mapGet st.dbMap dbName with
          | none => []
          | some w => columnLoop [] (env.findTableColumns (st.trace ++ [Event.load dbName]) w.DB
              SqlServerOperator.columnsSQL []).1) ∧
    columnLoop []
        [{ TableSchema := "s1", TableName := "t1", ColumnName := "c1", DataType := "int4",
           Comments := "" },
         { TableSchema := "s1", TableName := "t1", ColumnName := "c2", DataType := "text",
           Comments := "" },
         { TableSchema := "s1", TableName := "t2", ColumnName := "c1", DataType := "int4",
           Comments := "" }] =
      [("s1",
        [("t1", { TableName := "t1"
                  ColumnInfoList :=
                    [{ ColumnName := "c1", Comment := "", DataType := "int4" },
                     { ColumnName := "c2", Comment := "", DataType := "text" }] }),
         ("t2", { TableName := "t2"
                  ColumnInfoList :=
                    [{ ColumnName := "c1", Comment := "", DataType := "int4" }] })])] := by
  refine ⟨fun rows => ⟨nodup_mapKeys_columnLoop rows, mem_mapKeys_columnLoop rows,
    nodup_inner_columnLoop rows, fun s t => ?_, mapGet2_columnLoop rows⟩, ?_, ?_, by decide⟩
  · have h := mapGet2_columnLoop rows s t
    unfold mapGet2 at h
    rw [mem_mapKeys_iff, h]
    by_cases hm : (s, t) ∈ rows.map (fun row => (row.TableSchema, row.TableName)) <;> simp [hm]
  · intro env st dbName
    unfold PGOperator.GetColumns GetDB
    by_cases hn : dbName = ""
    · simp [hn]
    · cases hg : mapGet st.dbMap dbName with
      | none => simp [hn]
      | some w =>
        simp only [hn, if_false, State.log]
        cases he : (env.findTableColumns (st.trace ++ [Event.load dbName]) w.DB
            PGOperator.columnsSQL []).2 with
        | some err => simp
        | none =>
          simp only [Option.isSome_none, Bool.false_eq_true, if_false]
          split
          · rename_i h0
            rw [List.length_eq_zero.mp h0]
            rfl
          · rfl
  · intro env st dbName
    unfold SqlServerOperator.GetColumns GetDB
    by_cases hn : dbName = ""
    · simp [hn]
    · cases hg : mapGet st.dbMap dbName with
      | none => simp [hn]
      | some w =>
        simp only [hn, if_false, State.log]
        split
        · rename_i h0
          rw [List.length_eq_zero.mp h0]
          rfl
        · rfl

/-! ## Connection registry -/

theorem checkConfig_ok (env : Env) (config : Option Config) (c : Config)
    (h : checkConfig env config = .ok c) :
    ∃ c0, config = some c0 ∧ c.DBName = c0.DBName ∧ c0.DBName ≠ "" := by
  cases config with
  | none => simp [checkConfig] at h
  | some c0 =>
    refine ⟨c0, rfl, ?_⟩
    unfold checkConfig at h
    by_cases hn : c0.DBName = ""
    · simp [hn] at h
    · by_cases hd : c0.DSN = ""
      · by_cases hg : (env.GenDSN c0).1 = ""
        · simp [hn, hd, hg] at h
        · simp only [hn, hd, hg, if_false, if_true] at h
          injection h with h
          exact ⟨by rw [← h], hn⟩
      · simp only [hn, hd, if_false] at h
        injection h with h
        exact ⟨by rw [← h], hn⟩

theorem checkConfig_of_valid (env : Env) (c : Config) (hname : c.DBName ≠ "")
    (hdsn : c.DSN ≠ "" ∨ (env.GenDSN c).1 ≠ "") :
    ∃ c1, checkConfig env (some c) = .ok c1 ∧ c1.DBName = c.DBName := by
  unfold checkConfig
  by_cases hd : c.DSN = ""
  · have hg : (env.GenDSN c).1 ≠ "" := by
      rcases hdsn with h | h
      · exact absurd hd h
      · exact h
    exact ⟨{ c with DSN := (env.GenDSN c).2 }, by simp [hname, hd, hg], rfl⟩
  · exact ⟨c, by simp [hname, hd], rfl⟩

theorem openPool_dbMap (env : Env) (st : State) (c : Config) (d : Dialector) :
    (openPool env st c d).2.dbMap = st.dbMap := by
  unfold openPool
  simp only [State.log]
  split
  · rfl
  · split <;> rfl

theorem InitConfig_of_stored (env : Env) (st : State) (config : Option Config) (c : Config)
    (w : DBWrapper) (hc : checkConfig env config = .ok c)
    (hw : mapGet st.dbMap c.DBName = some w) :
    InitConfig env st config = (none, st.log (.load c.DBName)) := by
  unfold InitConfig
  simp [hc, hw]

theorem InitConfig_error_dbMap (env : Env) (st : State) (config : Option Config)
    (h : (InitConfig env st config).1 ≠ none) : (InitConfig env st config).2.dbMap = st.dbMap := by
  unfold InitConfig at h ⊢
  cases hc : checkConfig env config with
  | error err => simp
  | ok c =>
    simp only [hc] at h ⊢
    cases hg : mapGet st.dbMap c.DBName with
    | some w => simp [State.log]
    | none =>
      simp only [hg] at h ⊢
      cases hd : dialectOf c with
      | none => simp [State.log]
      | some d =>
        simp only [hd] at h ⊢
        have hm := openPool_dbMap env (st.log (.load c.DBName)) c d
        cases ho : openPool env (st.log (.load c.DBName)) c d with
        | mk r st1 =>
          rw [ho] at hm
          cases r with
          | error err => simpa [State.log] using hm
          | ok w => simp [ho] at h

theorem InitConfig_success_stored (env : Env) (st : State) (config : Option Config)
    (h : (InitConfig env st config).1 = none) :
    ∃ c w, checkConfig env config = .ok c ∧
      mapGet (InitConfig env st config).2.dbMap c.DBName = some w := by
  unfold InitConfig at h ⊢
  cases hc : checkConfig env config with
  | error err => simp [hc] at h
  | ok c =>
    simp only [hc] at h ⊢
    cases hg : mapGet st.dbMap c.DBName with
    | some w => exact ⟨c, w, rfl, by simpa [State.log] using hg⟩
    | none =>
      simp only [hg] at h ⊢
      cases hd : dialectOf c with
      | none => simp [hd] at h
      | some d =>
        simp only [hd] at h ⊢
        cases ho : openPool env (st.log (.load c.DBName)) c d with
        | mk r st1 =>
          cases r with
          | error err => simp [ho] at h
          | ok w => exact ⟨c, w, rfl, by simp [mapGet_mapSet_self]⟩

theorem InitConfig_no_empty_key (env : Env) (st : State) (config : Option Config)
    (h : mapGet st.dbMap "" = none) : mapGet (InitConfig env st config).2.dbMap "" = none := by
  unfold InitConfig
  cases hc : checkConfig env config with
  | error err => simpa using h
  | ok c =>
    obtain ⟨c0, -, hn, hne⟩ := checkConfig_ok env config c hc
    have hcn : c.DBName ≠ "" := by rw [hn]; exact hne
    simp only
    cases hg : mapGet st.dbMap c.DBName with
    | some w => simpa [State.log] using h
    | none =>
      simp only
      cases hd : dialectOf c with
      | none => simpa [State.log] using h
      | some d =>
        simp only
        have hm := openPool_dbMap env (st.log (.load c.DBName)) c d
        cases ho : openPool env (st.log (.load c.DBName)) c d with
        | mk r st1 =>
          rw [ho] at hm
          simp only [State.log] at hm
          cases r with
          | error err =>
            simp only
            rw [hm]
            exact h
          | ok w =>
            simp only
            rw [mapGet_mapSet_of_ne _ _ _ _ hcn, hm]
            exact h

theorem Close_no_empty_key (env : Env) (st : State) (dbName : String)
    (h : mapGet st.dbMap "" = none) : mapGet (Close env st dbName).2.dbMap "" = none := by
  unfold Close
  by_cases hn : dbName = ""
  · simpa [hn] using h
  · simp only [hn, if_false, State.log]
    have hd : mapGet (mapDelete st.dbMap dbName) "" = none := by
      rw [mapGet_mapDelete_of_ne _ _ _ hn]
      exact h
    cases mapGet st.dbMap dbName with
    | none => exact hd
    | some w =>
      simp only
      split <;> exact hd

theorem Reachable.no_empty_key {st : State} (h : Reachable st) : mapGet st.dbMap "" = none := by
  induction h with
  | init => rfl
  | initConfig env st config _ ih => exact InitConfig_no_empty_key env st config ih
  | close env st dbName _ ih => exact Close_no_empty_key env st dbName ih
  | logged st trace _ ih => exact ih

theorem Close_dbMap (env : Env) (st : State) (dbName : String) (hn : dbName ≠ "") :
    (Close env st dbName).2.dbMap = mapDelete st.dbMap dbName := by
  unfold Close
  simp only [hn, if_false, State.log]
  cases mapGet st.dbMap dbName with
  | none => rfl
  | some w =>
    simp only
    split <;> rfl

theorem count_mapKeys_mapSet_of_absent {V : Type} (m : List (String × V)) (k : String) (v : V)
    (h : mapGet m k = none) : (mapKeys (mapSet m k v)).count k = 1 := by
  have hk : k ∉ mapKeys m := (mapGet_eq_none_iff m k).mp h
  rw [mapKeys_mapSet, if_neg hk, List.count_append, List.count_eq_zero_of_not_mem hk]
  simp

theorem openPool_success (env : Env) (st st1 : State) (c : Config) (d : Dialector)
    (w : DBWrapper) (h : openPool env st c d = (.ok w, st1)) :
    env.gormOpen st.trace d = .ok w.DB ∧ w.Config = applyDefaults env c ∧
      st1.dbMap = st.dbMap ∧ opensOf st1.trace = opensOf st.trace ++ [d] := by
  unfold openPool at h
  simp only [State.log] at h
  cases ho : env.gormOpen st.trace d with
  | error err => simp [ho] at h
  | ok db =>
    simp only [ho] at h
    cases hg : env.dbDB (st.trace ++ [Event.gormOpen d]) db with
    | error err => simp [hg] at h
    | ok sqlDB =>
      simp only [hg] at h
      injection h with hw hst
      injection hw with hw
      subst hw
      subst hst
      simp [opensOf, List.filterMap_append]

theorem InitConfig_success_absent (env : Env) (st : State) (config : Option Config)
    (c : Config) (hc : checkConfig env config = .ok c)
    (habs : mapGet st.dbMap c.DBName = none) (h : (InitConfig env st config).1 = none) :
    ∃ d w st1, dialectOf c = some d ∧
      openPool env (st.log (.load c.DBName)) c d = (.ok w, st1) ∧
      InitConfig env st config =
        (none, { dbMap := mapSet st1.dbMap c.DBName w
                 trace := st1.trace ++ [.store c.DBName] }) := by
  unfold InitConfig at h ⊢
  simp only [hc, habs] at h ⊢
  cases hd : dialectOf c with
  | none => simp [hd] at h
  | some d =>
    simp only [hd] at h ⊢
    cases ho : openPool env (st.log (.load c.DBName)) c d with
    | mk r st1 =>
      cases r with
      | error err => simp [ho] at h
      | ok w => exact ⟨d, w, st1, rfl, ho, by simp only [ho]⟩

/-- C3: `InitConfig` is idempotent per name, first writer wins. When a handle
is already stored under `config.DBName` and the config has that non-empty
name and a derivable DSN, `InitConfig` returns nil, the registry is unchanged
and the only thing it did was the `Load` (no driver call); so a valid second
call after a successful first call with the same name changes nothing, and
when the name was absent before the first call, the one handle stored under
the name after both calls is the wrapper the first call built (the handle its
`gorm.Open` returned, with its config), and the driver was opened once. -/
theorem InitConfig_first_writer_wins (env : Env) (st : State) (config : Config) (w : DBWrapper)
    (hname : config.DBName ≠ "")
    (hdsn : config.DSN ≠ "" ∨ (env.GenDSN config).1 ≠ "")
    (hstored : mapGet st.dbMap config.DBName = some w) :
    InitConfig env st (some config) = (none, st.log (.load config.DBName)) ∧
    (∀ (st0 : State) (config0 : Option Config) (c0 : Config),
      checkConfig env config0 = .ok c0 → c0.DBName = config.DBName →
      (InitConfig env st0 config0).1 = none →
        InitConfig env (InitConfig env st0 config0).2 (some config) =
          (none, (InitConfig env st0 config0).2.log (.load config.DBName)) ∧
        (mapGet st0.dbMap config.DBName = none →
          ∃ dialect w1, dialectOf c0 = some dialect ∧
            env.gormOpen (st0.trace ++ [Event.load config.DBName]) dialect = .ok w1.DB ∧
            w1.Config = applyDefaults env c0 ∧
            (InitConfig env st0 config0).2.dbMap = mapSet st0.dbMap config.DBName w1 ∧
            mapGet (InitConfig env (InitConfig env st0 config0).2 (some config)).2.dbMap
              config.DBName = some w1 ∧
            (mapKeys (InitConfig env (InitConfig env st0 config0).2
              (some config)).2.dbMap).count config.DBName = 1 ∧
            opensOf (InitConfig env (InitConfig env st0 config0).2 (some config)).2.trace =
              opensOf st0.trace ++ [dialect])) := by
  obtain ⟨c1, hc1, hn1⟩ := checkConfig_of_valid env config hname hdsn
  have hsecond : ∀ (s : State) (v : DBWrapper), mapGet s.dbMap config.DBName = some v →
      InitConfig env s (some config) = (none, s.log (.load config.DBName)) := by
    intro s v hv
    have := InitConfig_of_stored env s (some config) c1 v hc1 (by rw [hn1]; exact hv)
    rw [hn1] at this
    exact this
  refine ⟨hsecond st w hstored, ?_⟩
  intro st0 config0 c0 hc0 hsame hok
  obtain ⟨c, v, hc, hv⟩ := InitConfig_success_stored env st0 config0 hok
  have hcc : c = c0 := by
    rw [hc0] at hc
    injection hc with hc
    exact hc.symm
  subst hcc
  rw [hsame] at hv
  have h2 := hsecond _ v hv
  refine ⟨h2, ?_⟩
  intro habs
  obtain ⟨d, w1, st1, hd, ho, hinit⟩ :=
    InitConfig_success_absent env st0 config0 c hc0 (by rw [hsame]; exact habs) hok
  obtain ⟨hopen, hcfg, hmap, hopens⟩ := openPool_success env _ st1 c d w1 ho
  simp only [State.log] at hmap hopens hopen
  rw [hsame] at hopen hopens hinit
  refine ⟨d, w1, hd, hopen, hcfg, ?_, ?_, ?_, ?_⟩
  · rw [hinit]
    simp only
    rw [hmap]
  · rw [h2, hinit]
    simp only [State.log]
    rw [mapGet_mapSet_self]
  · rw [h2, hinit]
    simp only [State.log]
    rw [hmap]
    exact count_mapKeys_mapSet_of_absent _ _ _ habs
  · rw [h2, hinit]
    simp only [State.log]
    rw [List.append_assoc]
    simp only [opensOf, List.filterMap_append] at hopens ⊢
    rw [hopens]
    simp

theorem InitConfig_first_writer_wins_witness :
    (InitConfig mockEnv (InitConfig mockEnv initState (some mainConfig)).2 (some mainConfig)
        = (none, (InitConfig mockEnv initState (some mainConfig)).2.log (.load "main"))) ∧
    mapGet (InitConfig mockEnv (InitConfig mockEnv initState (some mainConfig)).2
        (some mainConfig)).2.dbMap "main" =
      some { DB := { id := 0 }
             Config := { mainConfig with
               MaxOpenConn := 10, MaxIdleConn := 5, ConnMaxLifeTime := 3600 } } ∧
    opensOf (InitConfig mockEnv (InitConfig mockEnv initState (some mainConfig)).2
        (some mainConfig)).2.trace =
      [{ driver := "postgres", dsn := "host=localhost dbname=main" }] :=
  have h := InitConfig_first_writer_wins mockEnv
    (InitConfig mockEnv initState (some mainConfig)).2 mainConfig
    { DB := { id := 0 }
      Config := { mainConfig with MaxOpenConn := 10, MaxIdleConn := 5, ConnMaxLifeTime := 3600 } }
    (by decide) (Or.inl (by decide)) (by decide)
  ⟨h.1, by decide, by decide⟩

/-- C4: `Close` followed by `GetDB` on the same name misses. In every state the
package can reach and for every name, after `Close(name)`, whatever it
returned, `GetDB(name)` and `GetDBConfig(name)` return the error
`no db instance`, and the entry under every other name is as before. -/
theorem GetDB_after_Close_not_found (env : Env) (st : State) (name : String)
    (hr : Reachable st) :
    (GetDB (Close env st name).2 name).1 = .error "no db instance" ∧
    (GetDBConfig (Close env st name).2 name).1 = .error "no db instance" ∧
    (∀ other : String, other ≠ name →
      mapGet (Close env st name).2.dbMap other = mapGet st.dbMap other) := by
  have hgone : mapGet (Close env st name).2.dbMap name = none := by
    by_cases hn : name = ""
    · subst hn
      exact Close_no_empty_key env st "" hr.no_empty_key
    · rw [Close_dbMap env st name hn]
      exact mapGet_mapDelete_self _ _
  refine ⟨by simp [GetDB, hgone], by simp [GetDBConfig, hgone], ?_⟩
  intro other ho
  by_cases hn : name = ""
  · simp [Close, hn]
  · rw [Close_dbMap env st name hn]
    exact mapGet_mapDelete_of_ne _ _ _ (fun h => ho h.symm)

theorem GetDB_after_Close_not_found_witness :
    (GetDB (InitConfig mockEnv initState (some mainConfig)).2 "main").1 =
      .ok { DB := { id := 0 }
            Config := { mainConfig with
              MaxOpenConn := 10, MaxIdleConn := 5, ConnMaxLifeTime := 3600 } } ∧
    (Close mockEnv (InitConfig mockEnv initState (some mainConfig)).2 "main").1 = none ∧
    (GetDB (Close mockEnv (InitConfig mockEnv initState (some mainConfig)).2 "main").2
      "main").1 = .error "no db instance" :=
  ⟨by rfl, by decide,
    (GetDB_after_Close_not_found mockEnv (InitConfig mockEnv initState (some mainConfig)).2
      "main" (Reachable.initConfig mockEnv initState (some mainConfig) Reachable.init)).1⟩

/-- C5: `InitConfig` rejects invalid configs. When `config` is nil, or its
`DBName` is empty, or its `DSN` is empty and `GenDSN()` returns the empty
string, `InitConfig` returns one of the errors `no db config`, `no db name`,
`no db dsn`, and the state is the one before the call: nothing is stored, the
registry is not read and the driver is not called. -/
theorem InitConfig_rejects_invalid_config (env : Env) (st : State) (config : Option Config)
    (h : config = none ∨ ∃ c, config = some c ∧
      (c.DBName = "" ∨ (c.DSN = "" ∧ (env.GenDSN c).1 = ""))) :
    (InitConfig env st config).2 = st ∧
    ((InitConfig env st config).1 = some "no db config" ∨
     (InitConfig env st config).1 = some "no db name" ∨
     (InitConfig env st config).1 = some "no db dsn") ∧
    (config = none → (InitConfig env st config).1 = some "no db config") := by
  rcases h with h | ⟨c, hc, h⟩
  · subst h
    simp [InitConfig, checkConfig]
  · subst hc
    by_cases hn : c.DBName = ""
    · simp [InitConfig, checkConfig, hn]
    · rcases h with h | ⟨hd, hg⟩
      · exact absurd h hn
      · simp [InitConfig, checkConfig, hn, hd, hg]

theorem InitConfig_rejects_invalid_config_witness :
    InitConfig mockEnv initState (some { mainConfig with DSN := "" }) =
      (some "no db dsn", initState) :=
  have h := InitConfig_rejects_invalid_config mockEnv initState
    (some { mainConfig with DSN := "" })
    (Or.inr ⟨{ mainConfig with DSN := "" }, rfl, Or.inr ⟨by decide, by decide⟩⟩)
  Prod.ext (by decide) h.1

/-- C6: a failed `InitConfig` leaves no partial entry. For every state and
every config, if `InitConfig` returns an error then `dbMap` after the call is
`dbMap` before the call. -/
theorem InitConfig_failure_keeps_registry (env : Env) (st : State) (config : Option Config)
    (h : (InitConfig env st config).1 ≠ none) :
    (InitConfig env st config).2.dbMap = st.dbMap :=
  InitConfig_error_dbMap env st config h

theorem InitConfig_failure_keeps_registry_witness :
    (InitConfig mockEnv (InitConfig mockEnv initState (some mainConfig)).2
        (some { mainConfig with DBName := "lite", DBType := "sqlite" })).1 =
      some "unsupported dbType: sqlite" ∧
    (InitConfig mockEnv (InitConfig mockEnv initState (some mainConfig)).2
        (some { mainConfig with DBName := "lite", DBType := "sqlite" })).2.dbMap =
      (InitConfig mockEnv initState (some mainConfig)).2.dbMap :=
  ⟨by decide,
    InitConfig_failure_keeps_registry mockEnv (InitConfig mockEnv initState (some mainConfig)).2
      (some { mainConfig with DBName := "lite", DBType := "sqlite" }) (by decide)⟩

/-- C7, as stated, fails at the empty name: it has no entry in the start-up
registry, and `Close("")` returns the error `empty db name`. -/
theorem Close_empty_name_is_an_error :
    mapGet initState.dbMap "" = none ∧
    (Close mockEnv initState "").1 = some "empty db name" ∧
    (Close mockEnv initState "").1 ≠ none := by
  decide

/-- C7, amended: for every state and every non-empty name that has no entry in
the registry, `Close(name)` returns nil, leaves `dbMap` as it was and calls
nothing but `LoadAndDelete`; for the empty name `Close` returns the error
`empty db name` and leaves the state as it was. -/
theorem Close_absent_nonempty_name (env : Env) (st : State) (name : String)
    (hne : name ≠ "") (habs : mapGet st.dbMap name = none) :
    (Close env st name).1 = none ∧
    (Close env st name).2.dbMap = st.dbMap ∧
    (Close env st name).2.trace = st.trace ++ [Event.loadAndDelete name] ∧
    Close env st "" = (some "empty db name", st) := by
  refine ⟨?_, ?_, ?_, by simp [Close]⟩
  · simp [Close, hne, habs]
  · rw [Close_dbMap env st name hne]
    exact mapDelete_of_absent _ _ habs
  · simp [Close, hne, habs]

theorem Close_absent_nonempty_name_witness :
    (Close mockEnv (InitConfig mockEnv initState (some mainConfig)).2 "other").1 = none ∧
    (Close mockEnv (InitConfig mockEnv initState (some mainConfig)).2 "other").2.dbMap =
      (InitConfig mockEnv initState (some mainConfig)).2.dbMap :=
  have h := Close_absent_nonempty_name mockEnv (InitConfig mockEnv initState (some mainConfig)).2
    "other" (by decide) (by decide)
  ⟨h.1, h.2.1⟩

/-- C8 fails on the SQL Server operator. With `main` registered and a driver
whose catalog queries fail with `query failed`, the four introspection
operations of `SqlServerOperator` issue the query and return a nil error,
while the four of `PGOperator` return the error of the query. -/
theorem SqlServerOperator_drops_query_error :
    (mapGet (InitConfig failingQueryEnv initState (some mainConfig)).2.dbMap "main").isSome
      = true ∧
    (∀ trace db sql, (failingQueryEnv.findDBTables trace db sql).2 = some "query failed") ∧
    (∀ trace db sql args,
      (failingQueryEnv.findTableColumns trace db sql args).2 = some "query failed") ∧
    (SqlServerOperator.GetTablesUnderSchema failingQueryEnv
      (InitConfig failingQueryEnv initState (some mainConfig)).2 "main" ["dbo"]).err = none ∧
    (SqlServerOperator.GetTablesUnderSchema failingQueryEnv
      (InitConfig failingQueryEnv initState (some mainConfig)).2 "main" ["dbo"]).st.trace.getLast?
      = some (Event.rawFind { id := 0 } (SqlServerOperator.tablesUnderSchemaSQL ["'dbo'"]) []) ∧
    (SqlServerOperator.GetTablesUnderDB failingQueryEnv
      (InitConfig failingQueryEnv initState (some mainConfig)).2 "main").err = none ∧
    (SqlServerOperator.GetColumns failingQueryEnv
      (InitConfig failingQueryEnv initState (some mainConfig)).2 "main").err = none ∧
    (SqlServerOperator.GetColumnsUnderTables failingQueryEnv
      (InitConfig failingQueryEnv initState (some mainConfig)).2 "main" "dbo" ["t1"]).err
      = none ∧
    (PGOperator.GetTablesUnderSchema failingQueryEnv
      (InitConfig failingQueryEnv initState (some mainConfig)).2 "main" ["public"]).err
      = some "query failed" ∧
    (PGOperator.GetTablesUnderDB failingQueryEnv
      (InitConfig failingQueryEnv initState (some mainConfig)).2 "main").err
      = some "query failed" ∧
    (PGOperator.GetColumns failingQueryEnv
      (InitConfig failingQueryEnv initState (some mainConfig)).2 "main").err
      = some "query failed" ∧
    (PGOperator.GetColumnsUnderTables failingQueryEnv
      (InitConfig failingQueryEnv initState (some mainConfig)).2 "main" "public" ["t1"]).err
      = some "query failed" := by
  refine ⟨by decide, fun _ _ _ => rfl, fun _ _ _ _ => rfl, by decide, by rfl, by decide,
    by decide, by decide, by decide, by decide, by decide, by decide⟩

/-- C9: `GetColumnsUnderTables` validates its arguments first. For both
operators, every state and every `logicDBName`, if `dbName` is empty or
`tableNames` is empty the operation returns an empty map with the error
`empty dnName` or `empty tableNames`, and the state after is the state before:
no `Load` of the registry and no query are in the trace. -/
theorem GetColumnsUnderTables_validates_arguments (env : Env) (st : State)
    (dbName logicDBName : String) (tableNames : List String)
    (h : dbName = "" ∨ tableNames = []) :
    PGOperator.GetColumnsUnderTables env st dbName logicDBName tableNames =
      { tableColMap := []
        err := some (if dbName = "" then "empty dnName" else "empty tableNames")
        st := st } ∧
    SqlServerOperator.GetColumnsUnderTables env st dbName logicDBName tableNames =
      { tableColMap := []
        err := some (if dbName = "" then "empty dnName" else "empty tableNames")
        st := st } := by
  by_cases hn : dbName = ""
  · simp [PGOperator.GetColumnsUnderTables, SqlServerOperator.GetColumnsUnderTables, hn]
  · rcases h with h | h
    · exact absurd h hn
    · subst h
      simp [PGOperator.GetColumnsUnderTables, SqlServerOperator.GetColumnsUnderTables, hn]

theorem GetColumnsUnderTables_validates_arguments_witness :
    PGOperator.GetColumnsUnderTables mockEnv
        (InitConfig mockEnv initState (some mainConfig)).2 "main" "public" [] =
      { tableColMap := [], err := some "empty tableNames"
        st := (InitConfig mockEnv initState (some mainConfig)).2 } ∧
    SqlServerOperator.GetColumnsUnderTables mockEnv
        (InitConfig mockEnv initState (some mainConfig)).2 "main" "public" [] =
      { tableColMap := [], err := some "empty tableNames"
        st := (InitConfig mockEnv initState (some mainConfig)).2 } :=
  GetColumnsUnderTables_validates_arguments mockEnv
    (InitConfig mockEnv initState (some mainConfig)).2 "main" "public" [] (Or.inr rfl)

/-- C10 fails on the code. Taken alone, the three atomic steps of a call are
`InitConfig`; but when two calls with the same config on the empty registry
both run their `Load` before either runs its `Store`, both miss, the driver
is opened twice, both calls return nil, the second `Store` overwrites the
first, and the handle of the first open is neither stored nor closed. Run one
after the other, the same two calls open the driver once. -/
theorem InitConfig_race_opens_twice :
    (∀ (env : Env) (st : State) (config : Option Config),
      initStep env (initStep env (initStep env (.entry config) st).1
          (initStep env (.entry config) st).2).1
        (initStep env (initStep env (.entry config) st).1
          (initStep env (.entry config) st).2).2 =
        (.returned (InitConfig env st config).1, (InitConfig env st config).2)) ∧
    (runCalls mockEnv [0, 1, 0, 1, 0, 1]
        [.entry (some mainConfig), .entry (some mainConfig)] initState).1 =
      [.returned none, .returned none] ∧
    opensOf (runCalls mockEnv [0, 1, 0, 1, 0, 1]
        [.entry (some mainConfig), .entry (some mainConfig)] initState).2.trace =
      [{ driver := "postgres", dsn := "host=localhost dbname=main" },
       { driver := "postgres", dsn := "host=localhost dbname=main" }] ∧
    closesOf (runCalls mockEnv [0, 1, 0, 1, 0, 1]
        [.entry (some mainConfig), .entry (some mainConfig)] initState).2.trace = [] ∧
    (runCalls mockEnv [0, 1, 0, 1, 0, 1]
        [.entry (some mainConfig), .entry (some mainConfig)] initState).2.dbMap =
      [("main", { DB := { id := 1 }
                  Config := { mainConfig with
                    MaxOpenConn := 10, MaxIdleConn := 5, ConnMaxLifeTime := 3600 } })] ∧
    opensOf (runCalls mockEnv [0, 0, 0, 1, 1, 1]
        [.entry (some mainConfig), .entry (some mainConfig)] initState).2.trace =
      [{ driver := "postgres", dsn := "host=localhost dbname=main" }] := by
  refine ⟨?_, by decide, by decide, by decide, by decide, by decide⟩
  intro env st config
  unfold InitConfig
  cases hc : checkConfig env config with
  | error err => simp [initStep, hc]
  | ok c =>
    cases hg : mapGet st.dbMap c.DBName with
    | some w => simp [initStep, hc, hg]
    | none =>
      cases hd : dialectOf c with
      | none => simp [initStep, hc, hg, hd]
      | some d =>
        cases ho : openPool env (st.log (.load c.DBName)) c d with
        | mk r st1 =>
          cases r with
          | error err => simp [initStep, hc, hg, hd, ho]
          | ok w => simp [initStep, hc, hg, hd, ho]

/-! ## Table data and the schema list -/

theorem queryTable_eq (schemaName tableName : String) :
    queryTable schemaName tableName = quotedIdentifier schemaName tableName := by
  unfold queryTable quotedIdentifier
  by_cases h : schemaName = ""
  · simp [h]
  · have hdot : "\".\"" = "\"" ++ ("." ++ "\"") := by decide
    simp only [ne_eq, h, not_false_eq_true, if_true, if_false, String.append_assoc]
    rw [hdot, String.append_assoc, String.append_assoc]

theorem getTableData_of_absent (env : Env) (st : State)
    (dbName schemaName tableName : String) (pageInfo : Pagination)
    (h : mapGet st.dbMap dbName = none) :
    getTableData env st dbName schemaName tableName pageInfo =
      { rows := [], err := some "no db instance", pageInfo := pageInfo
        st := st.log (.load dbName) } := by
  simp [getTableData, GetDB, h]

theorem getTableData_of_stored (env : Env) (st : State)
    (dbName schemaName tableName : String) (pageInfo : Pagination) (w : DBWrapper)
    (h : mapGet st.dbMap dbName = some w) :
    (getTableData env st dbName schemaName tableName pageInfo).st.trace =
      st.trace ++ [Event.load dbName,
        Event.tableFind w.DB (queryTable schemaName tableName) (env.GetOffset pageInfo)
          pageInfo.PageSize] := by
  simp [getTableData, GetDB, h, State.log]

/-- C11: `GetTableData` builds the quoted table identifier from its arguments.
For both operators and every `schemaName` and `tableName`, the identifier is
the double-quoted table name when `schemaName` is empty and the double-quoted
schema name, a dot and the double-quoted table name otherwise; when the name
is registered this identifier is what the one driver call (count and page)
receives, after the `Load`; when it is not registered the operation returns
the error `no db instance` with an empty row list and the caller's
`pageInfo` as it was (`Total` and `PageCount` included), without a driver call. -/
theorem GetTableData_builds_quoted_identifier (env : Env) (st : State)
    (dbName schemaName tableName : String) (pageInfo : Pagination) :
    queryTable schemaName tableName = quotedIdentifier schemaName tableName ∧
    PGOperator.GetTableData env st dbName schemaName tableName pageInfo =
      (match mapGet st.dbMap dbName with
        | none =>
          { rows := [], err := some "no db instance", pageInfo := pageInfo
            st := { dbMap := st.dbMap, trace := st.trace ++ [Event.load dbName] } }
        | some w =>
          { rows := (env.findTableRows (st.trace ++ [Event.load dbName]) w.DB
              (quotedIdentifier schemaName tableName) (env.GetOffset pageInfo)
              pageInfo.PageSize).1
            err := (env.findTableRows (st.trace ++ [Event.load dbName]) w.DB
              (quotedIdentifier schemaName tableName) (env.GetOffset pageInfo)
              pageInfo.PageSize).2.2
            pageInfo := env.SetPageCount
              { pageInfo with
                Total := (env.findTableRows (st.trace ++ [Event.load dbName]) w.DB
                  (quotedIdentifier schemaName tableName) (env.GetOffset pageInfo)
                  pageInfo.PageSize).2.1 }
            st := { dbMap := st.dbMap
                    trace := st.trace ++ [Event.load dbName] ++
                      [Event.tableFind w.DB (quotedIdentifier schemaName tableName)
                        (env.GetOffset pageInfo) pageInfo.PageSize] } }) ∧
    SqlServerOperator.GetTableData env st dbName schemaName tableName pageInfo =
      PGOperator.GetTableData env st dbName schemaName tableName pageInfo ∧
    queryTable "" "users" = "\"users\"" ∧
    queryTable "public" "users" = "\"public\".\"users\"" ∧
    PGOperator.GetTableData mockEnv initState "main" "public" "users"
        { PageIndex := 2, PageSize := 10, Total := 7, PageCount := 3 } =
      { rows := [], err := some "no db instance"
        pageInfo := { PageIndex := 2, PageSize := 10, Total := 7, PageCount := 3 }
        st := { dbMap := [], trace := [Event.load "main"] } } := by
  refine ⟨queryTable_eq schemaName tableName, ?_, rfl, by decide, by decide, by decide⟩
  unfold PGOperator.GetTableData getTableData GetDB
  rw [queryTable_eq]
  cases h : mapGet st.dbMap dbName with
  | none => simp [State.log]
  | some w => simp [State.log]

theorem PGOperator_GetTablesUnderSchema_schemas (env : Env) (st : State) (dbName : String)
    (schemas : List String) :
    (PGOperator.GetTablesUnderSchema env st dbName schemas).schemas =
      if dbName = "" then schemas else quoteSchemas schemas := by
  unfold PGOperator.GetTablesUnderSchema GetDB
  by_cases hn : dbName = ""
  · simp [hn]
  · simp only [hn, if_false]
    cases mapGet st.dbMap dbName with
    | none => rfl
    | some w =>
      simp only
      split <;> rfl

theorem SqlServerOperator_GetTablesUnderSchema_schemas (env : Env) (st : State)
    (dbName : String) (schemas : List String) :
    (SqlServerOperator.GetTablesUnderSchema env st dbName schemas).schemas =
      if dbName = "" then schemas else quoteSchemas schemas := by
  unfold SqlServerOperator.GetTablesUnderSchema GetDB
  by_cases hn : dbName = ""
  · simp [hn]
  · simp only [hn, if_false]
    cases mapGet st.dbMap dbName with
    | none => rfl
    | some w =>
      simp only
      split <;> rfl

/-- C12: `GetTablesUnderSchema` rewrites the caller's `schemas` in place. For
both operators, a call with a non-empty `dbName` leaves, in place of each
element `x` of the slice, `x` between two single quotes with nothing escaped,
whether or not the name is registered (an unregistered name gives the error
`no db instance` and the slice is rewritten all the same); a second call on
the same slice wraps every element twice; a call with an empty `dbName`
leaves the slice as it was. -/
theorem GetTablesUnderSchema_rewrites_schemas (env : Env) (st : State) (dbName : String)
    (schemas : List String) :
    (PGOperator.GetTablesUnderSchema env st dbName schemas).schemas =
      (if dbName = "" then schemas else schemas.map singleQuoted) ∧
    (SqlServerOperator.GetTablesUnderSchema env st dbName schemas).schemas =
      (if dbName = "" then schemas else schemas.map singleQuoted) ∧
    (∀ st2 : State,
      (PGOperator.GetTablesUnderSchema env st2 dbName
          (PGOperator.GetTablesUnderSchema env st dbName schemas).schemas).schemas =
        (if dbName = "" then schemas
         else schemas.map (fun x => singleQuoted (singleQuoted x))) ∧
      (SqlServerOperator.GetTablesUnderSchema env st2 dbName
          (SqlServerOperator.GetTablesUnderSchema env st dbName schemas).schemas).schemas =
        (if dbName = "" then schemas
         else schemas.map (fun x => singleQuoted (singleQuoted x)))) ∧
    (dbName ≠ "" → mapGet st.dbMap dbName = none →
      PGOperator.GetTablesUnderSchema env st dbName schemas =
        { dbTableMap := [], err := some "no db instance", schemas := schemas.map singleQuoted
          st := { dbMap := st.dbMap, trace := st.trace ++ [Event.load dbName] } } ∧
      SqlServerOperator.GetTablesUnderSchema env st dbName schemas =
        { dbTableMap := [], err := some "no db instance", schemas := schemas.map singleQuoted
          st := { dbMap := st.dbMap, trace := st.trace ++ [Event.load dbName] } }) ∧
    singleQuoted "o'neil" = "'o'neil'" ∧
    PGOperator.GetTablesUnderSchema mockEnv initState "main" ["public", "o'neil"] =
      { dbTableMap := [], err := some "no db instance", schemas := ["'public'", "'o'neil'"]
        st := { dbMap := [], trace := [Event.load "main"] } } ∧
    (SqlServerOperator.GetTablesUnderSchema mockEnv initState "main"
        (SqlServerOperator.GetTablesUnderSchema mockEnv initState "main"
          ["dbo"]).schemas).schemas = ["''dbo''"] ∧
    (PGOperator.GetTablesUnderSchema mockEnv initState "" ["public"]).schemas = ["public"] := by
  have hq : ∀ l : List String, quoteSchemas l = l.map singleQuoted := fun _ => rfl
  refine ⟨?_, ?_, fun st2 => ⟨?_, ?_⟩, ?_, by decide, by decide, by decide, by decide⟩
  · rw [PGOperator_GetTablesUnderSchema_schemas, hq]
  · rw [SqlServerOperator_GetTablesUnderSchema_schemas, hq]
  · rw [PGOperator_GetTablesUnderSchema_schemas, PGOperator_GetTablesUnderSchema_schemas, hq, hq]
    by_cases hn : dbName = "" <;> simp [hn]
  · rw [SqlServerOperator_GetTablesUnderSchema_schemas,
      SqlServerOperator_GetTablesUnderSchema_schemas, hq, hq]
    by_cases hn : dbName = "" <;> simp [hn]
  · intro hn habs
    constructor
    · simp [PGOperator.GetTablesUnderSchema, GetDB, hn, habs, hq, State.log]
    · simp [SqlServerOperator.GetTablesUnderSchema, GetDB, hn, habs, hq, State.log]

end Dbutil
